import Mathlib

/-!
Verification of the Barberyn resort-assistant application.

The development shallowly embeds `src/streamlit_app.py`:

* `pyStrip` models Python `str.strip()`;
* `Backend` models the `RAGBackend` object (its `product_data` field);
* `get_system_prompt`, `query`, `stream_query` model the methods of the
  same names, with the upstream chat-completion service abstracted as an
  `Endpoint` oracle and each dispatched request recorded in a log;
* `load_markdown_content` and `initSession` model document loading and the
  session-initialization code at the top of `main`;
* `runScript` models one top-to-bottom run of the Streamlit script `main`
  acting on the persistent session state (`messages`, `processing`), and
  `Reachable` the states reachable from a fresh session.
-/

set_option linter.unusedVariables false

namespace Barberyn

/-- Whitespace test used by Python `str.strip()` (ASCII fragment). -/
def isSpace (c : Char) : Bool := c.isWhitespace

/-- Model of Python `str.strip()` on the character list: remove leading and
trailing whitespace. -/
def pyStripCore (l : List Char) : List Char :=
  List.rdropWhile isSpace (l.dropWhile isSpace)

/-- Model of Python `str.strip()`. -/
def pyStrip (s : String) : String := String.mk (pyStripCore s.data)

/-- A chat message, as in the role/content dictionaries built by the code. -/
structure Message where
  role : String
  content : String
deriving DecidableEq

/-- The `RAGBackend` object state: its loaded `product_data` string. -/
structure Backend where
  product_data : String
deriving DecidableEq

/-- The upstream chat-completion service, abstracted.  `complete` models a
non-streaming `chat.completions.create` call: it either raises (modelled as
`Except.error` carrying `str(e)`) or returns the list of choices, each
choice being its message `content`, which the OpenAI client types as
`Optional[str]` (hence `Option String`).  `streamComplete` models the
streaming call: the pair holds the `delta.content` values of the chunks
received before the stream finished or failed, and `some e` when an
exception carrying `str(e)` interrupted the call or the iteration. -/
structure Endpoint where
  complete : List Message → Except String (List (Option String))
  streamComplete : List Message → List (Option String) × Option String

/-- Text of the f-string in `get_system_prompt` before the start marker. -/
def promptIntro : String :=
  "\n        You are the Barberyn Resorts information assistant. Below is the information about Barberyn Resorts:\n\n        "

/-- The sentinel marker opening the injected document. -/
def startMarker : String := "==<|STARTOF_BARBERYN_DATA|>=="

/-- The sentinel marker closing the injected document. -/
def endMarker : String := "==<|ENDOF_BARBERYN_DATA|>=="

/-- Blank line and indentation separating the markers from the document. -/
def promptGap : String := "\n\n        "

/-- Text of the f-string in `get_system_prompt` after the end marker. -/
def promptInstructions : String :=
  "\n\n        Instructions for answering:\n        1. Answer questions only based on the information provided above.\n        2. If asked about a specific resort or service, provide all available details for that resort or service.\n        3. For every query about the resorts, be explicit about the availability status and provide the website link (URL).\n        4. When mentioning prices, always include the currency symbol.\n        5. If information is not available in the provided data, politely state that you don\x27t have that information and refer to the Barberyn Resorts official website \"https://www.barberynresorts.com/\".\n        6. Keep responses concise and focused on the question asked.\n        7. Format the response in a clear, readable way.\n        8. Do not make up or assume any information not present in the data.\n        9. Use markdown formatting when appropriate to make your response more readable.\n        "

/-- The placeholder `get_system_prompt` returns when no document is loaded. -/
def noDataPrompt : String := "Error: No product data available."

/-- `RAGBackend.get_system_prompt`: the `user_question` parameter is unused
by the source; the prompt embeds `product_data` between the sentinel
markers, or is the no-data placeholder when the document is empty. -/
def get_system_prompt (be : Backend) (user_question : Option String) : String :=
  if be.product_data = "" then noDataPrompt
  else
    promptIntro ++ startMarker ++ promptGap ++ be.product_data ++ promptGap ++
      endMarker ++ promptInstructions

/-- The reply `query`/`stream_query` produce when no document is loaded. -/
def noDataReply : String :=
  "Error: No product data available. Please check the markdown file."

/-- The error substitute string built from a caught exception `e`. -/
def apiErrorMsg (e : String) : String := "Error processing your request: " ++ e

/-- `query`'s coercion of its `user_question` argument: `None` becomes the
empty string, any string is kept verbatim (`str` is the identity here). -/
def queryQuestion (q : Option String) : String :=
  match q with
  | none => ""
  | some s => s

/-- `stream_query`'s coercion of its `user_question` argument: `None` or
`""` becomes `"Hello"`, then the value is stripped, and a blank result
again becomes `"Hello"`. -/
def streamQuestion (q : Option String) : String :=
  let q1 := match q with
    | none => "Hello"
    | some s => if s = "" then "Hello" else s
  let q2 := pyStrip q1
  if q2 = "" then "Hello" else q2

/-- The message array `query` dispatches (when the document is non-empty). -/
def queryMessages (be : Backend) (q : Option String) : List Message :=
  [Message.mk "system" (get_system_prompt be none),
   Message.mk "user" (queryQuestion q)]

/-- Result of a `query` call: the requests dispatched upstream (empty when
the call was skipped) and the returned value.  `answer = none` models the
Python function returning `None`. -/
structure QueryResult where
  requests : List (List Message)
  answer : Option String
deriving DecidableEq

/-- `RAGBackend.query`.  With an empty document it returns the fixed
no-data reply without calling upstream.  Otherwise it dispatches the
payload; an exception (including the `IndexError` on an empty choice list)
is caught and converted to `apiErrorMsg`; on success the first choice's
content is returned as-is.  The source's `if system_prompt is None` guard
is unreachable because `get_system_prompt` always returns a string. -/
def query (be : Backend) (ep : Endpoint) (user_question : Option String) :
    QueryResult :=
  if be.product_data = "" then ⟨[], some noDataReply⟩
  else
    let msgs := queryMessages be user_question
    match ep.complete msgs with
    | Except.error e => ⟨[msgs], some (apiErrorMsg e)⟩
    | Except.ok [] => ⟨[msgs], some (apiErrorMsg "list index out of range")⟩
    | Except.ok (c :: _) => ⟨[msgs], c⟩

/-- The fallback system prompt of `stream_query`'s defensive guard. -/
def fallbackStreamPrompt : String :=
  "You are a helpful assistant with knowledge about anton Product Information."

/-- The system prompt `stream_query` uses: `get_system_prompt` unless that
value is empty or the no-data placeholder. -/
def streamSystemPrompt (be : Backend) : String :=
  let sp := get_system_prompt be none
  if sp = "" ∨ sp = noDataPrompt then fallbackStreamPrompt else sp

/-- The message array `stream_query` dispatches (non-empty document). -/
def streamMessages (be : Backend) (q : Option String) : List Message :=
  [Message.mk "system" (streamSystemPrompt be),
   Message.mk "user" (streamQuestion q)]

/-- Result of a `stream_query` call: the requests dispatched upstream and
the fragments yielded by the generator, in order. -/
structure StreamResult where
  requests : List (List Message)
  fragments : List String
deriving DecidableEq

/-- `RAGBackend.stream_query`.  With an empty document it yields the fixed
no-data reply and stops without calling upstream.  Otherwise it dispatches
the payload and yields each received chunk content that is not `None`; an
exception before or during iteration makes it yield `apiErrorMsg` as the
final fragment. -/
def stream_query (be : Backend) (ep : Endpoint) (user_question : Option String) :
    StreamResult :=
  if be.product_data = "" then ⟨[], [noDataReply]⟩
  else
    let msgs := streamMessages be user_question
    let r := ep.streamComplete msgs
    let frags := r.1.filterMap id
    match r.2 with
    | none => ⟨[msgs], frags⟩
    | some e => ⟨[msgs], frags ++ [apiErrorMsg e]⟩

/-- The user-message contents of a dispatched payload. -/
def userContents (ms : List Message) : List String :=
  (ms.filter (fun m => m.role == "user")).map (fun m => m.content)

/-! ## Document loading and session initialization (`main`, top part) -/

/-- A file system, abstracted: maps a path to its decoded text content, or
to the exception text when opening/reading/decoding fails. -/
def FileSystem : Type := String → Except String String

/-- `load_markdown_content`: returns the file's full text, or `None` after
showing the error (any exception is caught). -/
def load_markdown_content (fs : FileSystem) (file_path : String) :
    Option String :=
  match fs file_path with
  | Except.ok content => some content
  | Except.error _ => none

/-- The error text `main` shows before halting when loading fails. -/
def loadFailMsg : String := "Failed to load markdown content."

/-- The session-initialization step of `main`: load the document; if the
result is falsy (`None` or the empty string) show `loadFailMsg` and halt
(`st.stop`), modelled as `Except.error`; otherwise the session starts with
the loaded content. -/
def initSession (fs : FileSystem) (file_path : String) :
    Except String String :=
  match load_markdown_content fs file_path with
  | none => Except.error loadFailMsg
  | some c => if c = "" then Except.error loadFailMsg else Except.ok c

/-! ## The Streamlit presentation loop as a state machine

`main` is re-run top to bottom on every interaction.  The persistent
session state is the transcript `messages` and the `processing` flag.  One
run of the script is modelled by `runScript`, taking as inputs whether the
New Chat button was clicked and the value of the chat input widget
(`none` when nothing was submitted).  `st.rerun`/`st.stop` end a run, so
at most one of the three mutating blocks fires per run. -/

/-- Persistent Streamlit session state. -/
structure UIState where
  messages : List Message
  processing : Bool
deriving DecidableEq

/-- The fallback assistant text when the stream produced no content. -/
def emptyResponseFallback : String :=
  "I\x27m having trouble generating a response right now. Please try again."

/-- `messages[-1]`, with a dummy value for the empty list: every use is
guarded by a non-emptiness test, as in the source. -/
def lastMsg (ms : List Message) : Message := ms.getLast?.getD (Message.mk "" "")

/-- The terminal assistant text the generation block writes for the stored
user message `um`: the concatenation of the stream's fragments (empty
chunks contribute nothing to a concatenation), or the fixed fallback when
that concatenation is empty. -/
def terminalText (be : Backend) (ep : Endpoint) (um : String) : String :=
  let full := String.join (stream_query be ep (some um)).fragments
  if full = "" then emptyResponseFallback else full

/-- The block of `main` that generates a reply: it fires when `processing`
is set and the last transcript entry is a user message.  A blank stored
message is rejected (`processing` cleared, nothing appended).  Otherwise an
empty assistant placeholder is appended, the stream is consumed — the
placeholder's content growing to the concatenation of the non-empty
fragments — and a fixed fallback is substituted if that concatenation is
empty; finally `processing` is cleared. -/
def processBlock (be : Backend) (ep : Endpoint) (s : UIState) : UIState :=
  if s.processing = true ∧ s.messages ≠ [] ∧ (lastMsg s.messages).role = "user" then
    if (lastMsg s.messages).content = "" ∨ pyStrip (lastMsg s.messages).content = "" then
      ⟨s.messages, false⟩
    else
      ⟨s.messages ++
        [Message.mk "assistant" (terminalText be ep (lastMsg s.messages).content)],
       false⟩
  else s

/-- One top-to-bottom run of `main` on session state `s`.  `newChat` models
the New Chat button (clears transcript, clears `processing`, reruns).
`input` models the chat-input widget value.  A truthy input while not
`processing` is stripped; a blank result stops the run with a warning;
otherwise the user message is appended, `processing` is set, and the run
ends with `st.rerun` — the generation block only fires on a later run. -/
def runScript (be : Backend) (ep : Endpoint) (s : UIState) (newChat : Bool)
    (input : Option String) : UIState :=
  if newChat then ⟨[], false⟩
  else
    match input with
    | some raw =>
      if raw ≠ "" ∧ s.processing = false then
        if pyStrip raw = "" then s
        else ⟨s.messages ++ [Message.mk "user" (pyStrip raw)], true⟩
      else processBlock be ep s
    | none => processBlock be ep s

/-- Session states reachable from a fresh session (empty transcript, not
processing) by repeated runs of the script. -/
inductive Reachable (be : Backend) (ep : Endpoint) : UIState → Prop
  | init : Reachable be ep ⟨[], false⟩
  | step (s : UIState) (newChat : Bool) (input : Option String) :
      Reachable be ep s → Reachable be ep (runScript be ep s newChat input)

/-- The user entries of a transcript. -/
def usersOf (ms : List Message) : List Message :=
  ms.filter (fun m => m.role == "user")

/-! ## Helper lemmas -/

/-- The first element remaining after `dropWhile` fails the predicate. -/
lemma head?_dropWhile_not (p : Char → Bool) (l : List Char) (a : Char)
    (h : (l.dropWhile p).head? = some a) : p a = false := by
  induction l with
  | nil => simp [List.dropWhile] at h
  | cons b t ih =>
    by_cases hb : p b
    · rw [List.dropWhile_cons_of_pos hb] at h
      exact ih h
    · rw [List.dropWhile_cons_of_neg hb] at h
      simp only [List.head?_cons, Option.some.injEq] at h
      subst h
      simpa using hb

/-- A stripped character list has no leading whitespace. -/
lemma pyStripCore_stable (l : List Char) :
    List.dropWhile isSpace (pyStripCore l) = pyStripCore l := by
  obtain ⟨t, ht⟩ := List.rdropWhile_prefix isSpace (l.dropWhile isSpace)
  have ht' : pyStripCore l ++ t = l.dropWhile isSpace := ht
  cases hcons : pyStripCore l with
  | nil => rfl
  | cons a tl =>
    have hm : l.dropWhile isSpace = a :: (tl ++ t) := by
      rw [← ht', hcons]
      simp
    have hp : isSpace a = false := by
      apply head?_dropWhile_not isSpace l a
      rw [hm]
      rfl
    rw [List.dropWhile_cons_of_neg (by simp [hp])]

/-- Stripping is idempotent on character lists. -/
lemma pyStripCore_idem (l : List Char) :
    pyStripCore (pyStripCore l) = pyStripCore l := by
  show List.rdropWhile isSpace ((pyStripCore l).dropWhile isSpace) = pyStripCore l
  rw [pyStripCore_stable]
  show List.rdropWhile isSpace
      (List.rdropWhile isSpace (l.dropWhile isSpace)) = pyStripCore l
  rw [List.rdropWhile_idempotent]
  rfl

/-- Python `strip` is idempotent. -/
lemma pyStrip_idem (s : String) : pyStrip (pyStrip s) = pyStrip s := by
  show String.mk (pyStripCore (String.mk (pyStripCore s.data)).data) = _
  rw [show (String.mk (pyStripCore s.data)).data = pyStripCore s.data from rfl,
    pyStripCore_idem]
  rfl

/-- With a loaded document the system prompt is the full instruction text. -/
lemma get_system_prompt_full (be : Backend) (hd : ¬ be.product_data = "") :
    get_system_prompt be none =
      promptIntro ++ startMarker ++ promptGap ++ be.product_data ++ promptGap ++
        endMarker ++ promptInstructions := by
  rw [get_system_prompt, if_neg hd]

/-- With a loaded document the system prompt is longer than the no-data
placeholder (hence distinct from it and from the empty string). -/
lemma fullPrompt_length (be : Backend) (hd : ¬ be.product_data = "") :
    noDataPrompt.length < (get_system_prompt be none).length := by
  rw [get_system_prompt_full be hd]
  simp only [String.length_append]
  have h1 : noDataPrompt.length < promptIntro.length := by decide
  omega

/-- With a loaded document, `stream_query`'s defensive prompt guard keeps
the prompt produced by `get_system_prompt`. -/
lemma streamSystemPrompt_eq (be : Backend) (hd : ¬ be.product_data = "") :
    streamSystemPrompt be = get_system_prompt be none := by
  have hlen := fullPrompt_length be hd
  have hnd : (0 : Nat) < noDataPrompt.length := by decide
  simp only [streamSystemPrompt]
  rw [if_neg]
  rintro (h | h)
  · rw [h] at hlen
    simp at hlen
  · rw [h] at hlen
    omega

/-- `sys` contains `d` verbatim strictly between the two sentinel markers. -/
def ContainsBetweenMarkers (sys d : String) : Prop :=
  ∃ a b c e, sys = a ++ (startMarker ++ (b ++ (d ++ (c ++ (endMarker ++ e)))))

/-- The generated system prompt carries the document between the markers. -/
lemma fullPrompt_markers (be : Backend) (hd : ¬ be.product_data = "") :
    ContainsBetweenMarkers (get_system_prompt be none) be.product_data := by
  refine ⟨promptIntro, promptGap, promptGap, promptInstructions, ?_⟩
  rw [get_system_prompt_full be hd]
  simp [String.append_assoc]

/-! ## Test fixtures used by witnesses and counterexamples -/

/-- A one-character document. -/
def beSmall : Backend := ⟨"d"⟩

/-- A backend whose document is empty. -/
def beEmpty : Backend := ⟨""⟩

/-- The content of the first user message of a payload. -/
def userContentOf (msgs : List Message) : String := (userContents msgs).headD ""

/-- An endpoint that answers with the user message itself, identically in
streaming and non-streaming mode. -/
def epEcho : Endpoint :=
  ⟨fun msgs => Except.ok [some (userContentOf msgs)],
   fun msgs => ([some (userContentOf msgs)], none)⟩

/-- An endpoint that succeeds with a `null` message content. -/
def epNull : Endpoint := ⟨fun _ => Except.ok [none], fun _ => ([], none)⟩

/-- An endpoint that returns a fixed answer, streamed in two chunks with an
interleaved `null` delta. -/
def epConst : Endpoint :=
  ⟨fun _ => Except.ok [some "The resort is open."],
   fun _ => ([some "The resort ", none, some "is open."], none)⟩

/-- An endpoint that fails: non-streaming calls raise, streaming calls
deliver one chunk and then raise. -/
def epFail : Endpoint :=
  ⟨fun _ => Except.error "boom", fun _ => ([some "partial "], some "boom")⟩

/-! ## Transcript well-formedness -/

/-- Transcript entry invariant: the role is `user` or `assistant`, and a
user entry holds a non-empty, already-stripped text. -/
def WFMsg (m : Message) : Prop :=
  (m.role = "user" ∨ m.role = "assistant") ∧
    (m.role = "user" → m.content ≠ "" ∧ pyStrip m.content = m.content)

/-- All transcript entries are well-formed. -/
def WF (s : UIState) : Prop := ∀ m ∈ s.messages, WFMsg m

/-- The generation block preserves transcript well-formedness. -/
lemma WF_processBlock (be : Backend) (ep : Endpoint) (s : UIState)
    (h : WF s) : WF (processBlock be ep s) := by
  unfold processBlock
  split
  · split
    · exact h
    · intro m hm
      rcases List.mem_append.mp hm with hm1 | hm2
      · exact h m hm1
      · rw [List.mem_singleton] at hm2
        subst hm2
        exact ⟨Or.inr rfl, by intro hu; simp at hu⟩
  · exact h

/-- Every run of the script preserves transcript well-formedness. -/
lemma WF_runScript (be : Backend) (ep : Endpoint) (s : UIState)
    (newChat : Bool) (input : Option String) (h : WF s) :
    WF (runScript be ep s newChat input) := by
  unfold runScript
  split
  · intro m hm
    simp at hm
  · cases input with
    | none => exact WF_processBlock be ep s h
    | some raw =>
      dsimp only
      by_cases hc : raw ≠ "" ∧ s.processing = false
      · rw [if_pos hc]
        by_cases ht : pyStrip raw = ""
        · rw [if_pos ht]
          exact h
        · rw [if_neg ht]
          intro m hm
          rcases List.mem_append.mp hm with hm1 | hm2
          · exact h m hm1
          · rw [List.mem_singleton] at hm2
            subst hm2
            exact ⟨Or.inl rfl, fun _ => ⟨ht, pyStrip_idem raw⟩⟩
      · rw [if_neg hc]
        exact WF_processBlock be ep s h

/-- Reachable session states are well-formed. -/
lemma WF_reachable (be : Backend) (ep : Endpoint) (s : UIState)
    (h : Reachable be ep s) : WF s := by
  induction h with
  | init => intro m hm; simp at hm
  | step s newChat input _ ih => exact WF_runScript be ep s newChat input ih

/-- Appending an assistant entry leaves the user entries unchanged. -/
lemma usersOf_append_assistant (ms : List Message) (t : String) :
    usersOf (ms ++ [Message.mk "assistant" t]) = usersOf ms := by
  unfold usersOf
  rw [List.filter_append]
  simp

/-- Appending a user entry appends it to the user entries. -/
lemma usersOf_append_user (ms : List Message) (t : String) :
    usersOf (ms ++ [Message.mk "user" t]) = usersOf ms ++ [Message.mk "user" t] := by
  unfold usersOf
  rw [List.filter_append]
  simp

/-- `lastMsg` of a non-empty transcript is one of its entries. -/
lemma lastMsg_mem (ms : List Message) (h : ms ≠ []) : lastMsg ms ∈ ms := by
  unfold lastMsg
  rw [List.getLast?_eq_getLast ms h]
  exact List.getLast_mem h

/-- The terminal assistant text is never empty. -/
lemma terminalText_ne (be : Backend) (ep : Endpoint) (um : String) :
    terminalText be ep um ≠ "" := by
  unfold terminalText
  dsimp only
  split
  · decide
  · assumption

/-- The generation block never adds or removes user entries. -/
lemma processBlock_usersOf (be : Backend) (ep : Endpoint) (s : UIState) :
    usersOf (processBlock be ep s).messages = usersOf s.messages := by
  unfold processBlock
  split
  · split
    · rfl
    · exact usersOf_append_assistant s.messages _
  · rfl

/-- On a well-formed busy state, if the generation block clears the busy
flag then it has appended a non-empty terminal assistant entry. -/
lemma processBlock_clears (be : Backend) (ep : Endpoint) (s : UIState)
    (hw : WF s) (hp : s.processing = true)
    (hres : (processBlock be ep s).processing = false) :
    ∃ t, t ≠ "" ∧
      (processBlock be ep s).messages = s.messages ++ [Message.mk "assistant" t] := by
  by_cases h1 : s.processing = true ∧ s.messages ≠ [] ∧
      (lastMsg s.messages).role = "user"
  · have hwf := hw _ (lastMsg_mem s.messages h1.2.1)
    have hublank : ¬((lastMsg s.messages).content = "" ∨
        pyStrip (lastMsg s.messages).content = "") := by
      obtain ⟨hne, hfix⟩ := hwf.2 h1.2.2
      rintro (hc | hc)
      · exact hne hc
      · rw [hfix] at hc
        exact hne hc
    rw [processBlock, if_pos h1, if_neg hublank]
    exact ⟨terminalText be ep (lastMsg s.messages).content,
      terminalText_ne be ep _, rfl⟩
  · rw [processBlock, if_neg h1] at hres
    rw [hp] at hres
    cases hres

/-- Joining a one-element list of strings gives back the string. -/
lemma join_singleton (s : String) : String.join [s] = s := by
  show String.join ([] ++ [s]) = s
  rw [List.nil_append]
  show ("" : String) ++ s = s
  exact String.empty_append s

/-- While busy, a run without a reset leaves the user entries unchanged. -/
lemma runScript_busy_usersOf (be : Backend) (ep : Endpoint) (s : UIState)
    (input : Option String) (hp : s.processing = true) :
    usersOf (runScript be ep s false input).messages = usersOf s.messages := by
  unfold runScript
  rw [if_neg (by simp)]
  cases input with
  | none => exact processBlock_usersOf be ep s
  | some raw =>
    dsimp only
    rw [if_neg (by rw [hp]; rintro ⟨-, hq⟩; cases hq)]
    exact processBlock_usersOf be ep s

/-- If a run without a reset changes the user entries, it has set the busy
flag: the only block that touches user entries is input acceptance. -/
lemma runScript_users_change (be : Backend) (ep : Endpoint) (s : UIState)
    (input : Option String)
    (h : usersOf (runScript be ep s false input).messages ≠ usersOf s.messages) :
    (runScript be ep s false input).processing = true := by
  revert h
  unfold runScript
  rw [if_neg (by simp)]
  cases input with
  | none =>
    intro h
    exact absurd (processBlock_usersOf be ep s) h
  | some raw =>
    dsimp only
    by_cases hc : raw ≠ "" ∧ s.processing = false
    · rw [if_pos hc]
      by_cases ht : pyStrip raw = ""
      · rw [if_pos ht]
        intro h
        exact absurd rfl h
      · rw [if_neg ht]
        intro _
        rfl
    · rw [if_neg hc]
      intro h
      exact absurd (processBlock_usersOf be ep s) h

/-- Consistency of the abstract endpoint at one payload: the non-streaming
call succeeds with a single choice carrying text `a`, the streaming call
succeeds, and its chunk contents concatenate to `a`.  This is the common
model of the upstream service relating the two operations. -/
def ConsistentAt (ep : Endpoint) (msgs : List Message) : Prop :=
  ∃ a deltas, ep.complete msgs = Except.ok [some a] ∧
    ep.streamComplete msgs = (deltas, none) ∧
    String.join (deltas.filterMap id) = a

/-- With a loaded document, `query` dispatches exactly one request. -/
lemma query_requests (be : Backend) (ep : Endpoint) (q : Option String)
    (hd : ¬ be.product_data = "") :
    (query be ep q).requests = [queryMessages be q] := by
  unfold query
  rw [if_neg hd]
  dsimp only
  cases ep.complete (queryMessages be q) with
  | error e => rfl
  | ok choices =>
    cases choices with
    | nil => rfl
    | cons c tl => rfl

/-- With a loaded document, `stream_query` dispatches exactly one request. -/
lemma stream_query_requests (be : Backend) (ep : Endpoint) (q : Option String)
    (hd : ¬ be.product_data = "") :
    (stream_query be ep q).requests = [streamMessages be q] := by
  unfold stream_query
  rw [if_neg hd]
  dsimp only
  cases (ep.streamComplete (streamMessages be q)).2 with
  | none => rfl
  | some e => rfl

/-- A successful non-streaming call returns the first choice's content. -/
lemma query_answer_ok (be : Backend) (ep : Endpoint) (q : Option String)
    (a : String) (hd : ¬ be.product_data = "")
    (h : ep.complete (queryMessages be q) = Except.ok [some a]) :
    (query be ep q).answer = some a := by
  unfold query
  rw [if_neg hd]
  dsimp only
  rw [h]

/-- A successful streaming call yields the non-null chunk contents. -/
lemma stream_query_fragments_ok (be : Backend) (ep : Endpoint)
    (q : Option String) (deltas : List (Option String))
    (hd : ¬ be.product_data = "")
    (h : ep.streamComplete (streamMessages be q) = (deltas, none)) :
    (stream_query be ep q).fragments = deltas.filterMap id := by
  unfold stream_query
  rw [if_neg hd]
  dsimp only
  rw [h]

/-- For a non-empty question string, `stream_query` dispatches its stripped
form, falling back to `Hello` when it is all whitespace. -/
lemma streamQuestion_of_ne (Q : String) (hQ : ¬ Q = "") :
    streamQuestion (some Q) = if pyStrip Q = "" then "Hello" else pyStrip Q := by
  unfold streamQuestion
  dsimp only
  rw [if_neg hQ]

/-- A missing, empty or blank question becomes `Hello` in `stream_query`. -/
lemma streamQuestion_hello (q : Option String)
    (hq : q = none ∨ q = some "" ∨ pyStrip (q.getD "") = "") :
    streamQuestion q = "Hello" := by
  rcases q with _ | s
  · decide
  · rcases hq with h | h | h
    · cases h
    · rw [Option.some.injEq] at h
      subst h
      decide
    · by_cases hs : s = ""
      · subst hs
        decide
      · unfold streamQuestion
        dsimp only
        rw [if_neg hs]
        rw [show (some s).getD "" = s from rfl] at h
        rw [h, if_pos rfl]

/-- The user content of a two-message system/user payload. -/
lemma userContents_pair (sys u : String) :
    userContents [Message.mk "system" sys, Message.mk "user" u] = [u] := rfl

/-- Example file systems for the loader theorems. -/
def fsGood : FileSystem := fun _ => Except.ok "Resort data"

/-- A file system on which every read raises. -/
def fsBad : FileSystem := fun _ => Except.error "missing"

/-! ## Claims -/

/-- C9: the system prompt produced by `get_system_prompt` is identical for
any two question values (including `None`): the builder's output depends
only on the stored document and ignores its `user_question` parameter. -/
theorem C9_prompt_ignores_question (be : Backend) (q1 q2 : Option String) :
    get_system_prompt be q1 = get_system_prompt be q2 := rfl

/-- C2: with an empty loaded document, neither `query` nor `stream_query`
dispatches any upstream request (their outcome is even independent of the
endpoint), and the user-visible reply is the fixed no-data error string. -/
theorem C2_empty_doc_no_call (be : Backend) (ep : Endpoint)
    (q : Option String) (hd : be.product_data = "") :
    (query be ep q).requests = [] ∧
    (query be ep q).answer = some noDataReply ∧
    (stream_query be ep q).requests = [] ∧
    (stream_query be ep q).fragments = [noDataReply] ∧
    (∀ ep2 : Endpoint, query be ep2 q = query be ep q ∧
      stream_query be ep2 q = stream_query be ep q) := by
  have hq : ∀ ep2 : Endpoint, query be ep2 q = ⟨[], some noDataReply⟩ := by
    intro ep2
    unfold query
    rw [if_pos hd]
  have hs : ∀ ep2 : Endpoint, stream_query be ep2 q = ⟨[], [noDataReply]⟩ := by
    intro ep2
    unfold stream_query
    rw [if_pos hd]
  rw [hq ep, hs ep]
  exact ⟨rfl, rfl, rfl, rfl, fun ep2 => ⟨by rw [hq ep2], by rw [hs ep2]⟩⟩

/-- Witness for C2 at a concrete empty-document backend. -/
theorem C2_witness :
    beEmpty.product_data = "" ∧
    ((query beEmpty epEcho none).requests = [] ∧
     (query beEmpty epEcho none).answer = some noDataReply ∧
     (stream_query beEmpty epEcho none).requests = [] ∧
     (stream_query beEmpty epEcho none).fragments = [noDataReply] ∧
     (∀ ep2 : Endpoint, query beEmpty ep2 none = query beEmpty epEcho none ∧
       stream_query beEmpty ep2 none = stream_query beEmpty epEcho none)) :=
  ⟨rfl, C2_empty_doc_no_call beEmpty epEcho none rfl⟩

/-- C4 (amended): `query` never raises past its boundary — every upstream
exception, including the index error on an empty choice list, is converted
to the displayable substitute string, and with an empty document the fixed
no-data string is returned — but when the upstream call succeeds with a
null first-choice content, `query` returns that null value (Python `None`)
rather than a string. -/
theorem C4_no_raise (be : Backend) (ep : Endpoint) (q : Option String) :
    (∃ s, (query be ep q).answer = some s) ∨
    ((query be ep q).answer = none ∧
      ∃ tl, ep.complete (queryMessages be q) = Except.ok (none :: tl)) := by
  unfold query
  by_cases hd : be.product_data = ""
  · rw [if_pos hd]
    exact Or.inl ⟨noDataReply, rfl⟩
  · rw [if_neg hd]
    dsimp only
    cases hc : ep.complete (queryMessages be q) with
    | error e => exact Or.inl ⟨apiErrorMsg e, rfl⟩
    | ok choices =>
      cases choices with
      | nil => exact Or.inl ⟨apiErrorMsg "list index out of range", rfl⟩
      | cons c tl =>
        cases c with
        | none => exact Or.inr ⟨rfl, tl, rfl⟩
        | some s => exact Or.inl ⟨s, rfl⟩

/-- Counterexample to C4 as stated: an upstream success whose message
content is null makes `query` return `None`, which is not a string. -/
theorem C4_counterexample :
    (query beSmall epNull (some "hi")).answer = none ∧
    ∀ s : String, (query beSmall epNull (some "hi")).answer ≠ some s := by
  refine ⟨rfl, fun s h => ?_⟩
  rw [show (query beSmall epNull (some "hi")).answer = none from rfl] at h
  cases h

/-- C5: if the streaming call fails (before any chunk or mid-stream), the
chunks already received stay emitted, and the yielded sequence ends with a
single error-message fragment. -/
theorem C5_midstream_error_final (be : Backend) (ep : Endpoint)
    (q : Option String) (deltas : List (Option String)) (e : String)
    (hd : ¬ be.product_data = "")
    (hs : ep.streamComplete (streamMessages be q) = (deltas, some e)) :
    (stream_query be ep q).fragments = deltas.filterMap id ++ [apiErrorMsg e] ∧
    (stream_query be ep q).fragments.getLast? = some (apiErrorMsg e) := by
  have hf : (stream_query be ep q).fragments =
      deltas.filterMap id ++ [apiErrorMsg e] := by
    unfold stream_query
    rw [if_neg hd]
    dsimp only
    rw [hs]
  exact ⟨hf, by rw [hf]; exact List.getLast?_concat _⟩

/-- Witness for C5 at a concretely failing endpoint. -/
theorem C5_witness :
    (¬ beSmall.product_data = "") ∧
    epFail.streamComplete (streamMessages beSmall (some "hi")) =
      ([some "partial "], some "boom") ∧
    ((stream_query beSmall epFail (some "hi")).fragments =
        [some "partial "].filterMap id ++ [apiErrorMsg "boom"] ∧
     (stream_query beSmall epFail (some "hi")).fragments.getLast? =
        some (apiErrorMsg "boom")) :=
  ⟨by decide, rfl,
    C5_midstream_error_final beSmall epFail (some "hi") [some "partial "]
      "boom" (by decide) rfl⟩

/-- C7: the document loader returns the file's full text, or `None` on a
read failure; a falsy result (failure, or an empty file) makes session
initialization halt with the user-visible error state, so a session never
starts with an empty knowledge base. -/
theorem C7_loader_halts (fs : FileSystem) (file_path : String) :
    (∀ c, fs file_path = Except.ok c →
      load_markdown_content fs file_path = some c) ∧
    (∀ e, fs file_path = Except.error e →
      load_markdown_content fs file_path = none ∧
      initSession fs file_path = Except.error loadFailMsg) ∧
    (∀ c, initSession fs file_path = Except.ok c → ¬ c = "") := by
  refine ⟨?_, ?_, ?_⟩
  · intro c hc
    unfold load_markdown_content
    rw [hc]
  · intro e he
    unfold initSession load_markdown_content
    rw [he]
    exact ⟨rfl, rfl⟩
  · intro c hc hce
    subst hce
    unfold initSession at hc
    cases hl : load_markdown_content fs file_path with
    | none =>
      rw [hl] at hc
      cases hc
    | some c2 =>
      rw [hl] at hc
      dsimp only at hc
      by_cases h0 : c2 = ""
      · rw [if_pos h0] at hc
        cases hc
      · rw [if_neg h0] at hc
        cases hc
        exact h0 rfl

/-- Witness for C7 on a concretely failing file system. -/
theorem C7_witness :
    fsBad "scraped_markdown.md" = Except.error "missing" ∧
    (load_markdown_content fsBad "scraped_markdown.md" = none ∧
     initSession fsBad "scraped_markdown.md" = Except.error loadFailMsg) :=
  ⟨rfl, (C7_loader_halts fsBad "scraped_markdown.md").2.1 "missing" rfl⟩

/-- C1 (amended): for non-empty document `D` and non-empty question `Q`,
both operations dispatch a payload whose system message carries `D`
verbatim between the sentinel markers; `query` sends `Q` verbatim as the
user content, while `stream_query` sends the stripped form of `Q` (or
`Hello` when `Q` is all whitespace), which is `Q` itself exactly when `Q`
has no leading or trailing whitespace. -/
theorem C1_payload_verbatim (ep : Endpoint) (D Q : String)
    (hD : ¬ D = "") (hQ : ¬ Q = "") :
    (query ⟨D⟩ ep (some Q)).requests =
      [[Message.mk "system" (get_system_prompt ⟨D⟩ none), Message.mk "user" Q]] ∧
    ContainsBetweenMarkers (get_system_prompt ⟨D⟩ none) D ∧
    (stream_query ⟨D⟩ ep (some Q)).requests =
      [[Message.mk "system" (get_system_prompt ⟨D⟩ none),
        Message.mk "user" (if pyStrip Q = "" then "Hello" else pyStrip Q)]] ∧
    (pyStrip Q = Q →
      (stream_query ⟨D⟩ ep (some Q)).requests =
        [[Message.mk "system" (get_system_prompt ⟨D⟩ none),
          Message.mk "user" Q]]) := by
  have hd : ¬ (⟨D⟩ : Backend).product_data = "" := hD
  have h2 : (stream_query ⟨D⟩ ep (some Q)).requests =
      [streamMessages ⟨D⟩ (some Q)] := stream_query_requests ⟨D⟩ ep (some Q) hd
  have h3 : streamMessages ⟨D⟩ (some Q) =
      [Message.mk "system" (get_system_prompt ⟨D⟩ none),
       Message.mk "user" (if pyStrip Q = "" then "Hello" else pyStrip Q)] := by
    unfold streamMessages
    rw [streamSystemPrompt_eq ⟨D⟩ hd, streamQuestion_of_ne Q hQ]
  refine ⟨?_, fullPrompt_markers ⟨D⟩ hd, ?_, ?_⟩
  · rw [query_requests ⟨D⟩ ep (some Q) hd]
    rfl
  · rw [h2, h3]
  · intro hfix
    rw [h2, h3, hfix, if_neg hQ]

/-- Counterexample to C1 as stated: for the non-empty question `" hi "`,
`stream_query` dispatches the stripped text `"hi"`, not `" hi "` verbatim,
as its user-message content. -/
theorem C1_counterexample :
    (stream_query beSmall epEcho (some " hi ")).requests.map userContents =
      [["hi"]] ∧ (" hi " : String) ≠ "hi" := by
  refine ⟨?_, by decide⟩
  rw [stream_query_requests beSmall epEcho (some " hi ") (by decide)]
  rfl

/-- Witness for C1 at a concrete document and question. -/
theorem C1_witness :
    (¬ ("d" : String) = "") ∧ (¬ ("hi" : String) = "") ∧
    ((query ⟨"d"⟩ epEcho (some "hi")).requests =
      [[Message.mk "system" (get_system_prompt ⟨"d"⟩ none),
        Message.mk "user" "hi"]] ∧
     ContainsBetweenMarkers (get_system_prompt ⟨"d"⟩ none) "d" ∧
     (stream_query ⟨"d"⟩ epEcho (some "hi")).requests =
      [[Message.mk "system" (get_system_prompt ⟨"d"⟩ none),
        Message.mk "user" (if pyStrip "hi" = "" then "Hello" else pyStrip "hi")]] ∧
     (pyStrip "hi" = "hi" →
      (stream_query ⟨"d"⟩ epEcho (some "hi")).requests =
        [[Message.mk "system" (get_system_prompt ⟨"d"⟩ none),
          Message.mk "user" "hi"]])) :=
  ⟨by decide, by decide,
    C1_payload_verbatim epEcho "d" "hi" (by decide) (by decide)⟩

/-- C3 (amended): under a consistent model of the upstream endpoint — the
streamed chunks concatenate to the non-streaming answer for every payload —
the concatenation of the fragments yielded by `stream_query` equals the
result of `query`, whenever the document is empty (both return the fixed
no-data reply) or the two operations dispatch the same user content, i.e.
the question is a non-empty string unchanged by stripping. -/
theorem C3_stream_matches_query (be : Backend) (ep : Endpoint)
    (q : Option String)
    (hq : be.product_data = "" ∨ streamQuestion q = queryQuestion q)
    (hc : ∀ msgs, ConsistentAt ep msgs) :
    (query be ep q).answer =
      some (String.join (stream_query be ep q).fragments) := by
  by_cases hd : be.product_data = ""
  · have h1 : query be ep q = ⟨[], some noDataReply⟩ := by
      unfold query
      rw [if_pos hd]
    have h2 : stream_query be ep q = ⟨[], [noDataReply]⟩ := by
      unfold stream_query
      rw [if_pos hd]
    rw [h1, h2]
    show some noDataReply = some (String.join [noDataReply])
    rw [join_singleton]
  · have hqq : streamQuestion q = queryQuestion q := hq.resolve_left hd
    have hmsgs : streamMessages be q = queryMessages be q := by
      unfold streamMessages queryMessages
      rw [streamSystemPrompt_eq be hd, hqq]
    obtain ⟨a, deltas, hce, hcs, hj⟩ := hc (queryMessages be q)
    rw [query_answer_ok be ep q a hd hce,
      stream_query_fragments_ok be ep q deltas hd (by rw [hmsgs]; exact hcs),
      hj]

/-- Counterexample to C3 as stated: with the consistent echo endpoint and a
missing question, `query` dispatches the empty question and answers `""`
while `stream_query` dispatches the `Hello` fallback and streams `"Hello"`,
so the two results differ. -/
theorem C3_counterexample :
    (∀ msgs, ConsistentAt epEcho msgs) ∧
    (query beSmall epEcho none).answer ≠
      some (String.join (stream_query beSmall epEcho none).fragments) := by
  constructor
  · intro msgs
    exact ⟨userContentOf msgs, [some (userContentOf msgs)], rfl, rfl,
      join_singleton _⟩
  · intro h
    rw [show (query beSmall epEcho none).answer = some "" from rfl] at h
    rw [show String.join (stream_query beSmall epEcho none).fragments =
      "Hello" from by decide] at h
    exact absurd h (by decide)

/-- Witness for C3 at a concrete consistent endpoint. -/
theorem C3_witness :
    (beSmall.product_data = "" ∨
      streamQuestion (some "hi") = queryQuestion (some "hi")) ∧
    (query beSmall epConst (some "hi")).answer =
      some (String.join (stream_query beSmall epConst (some "hi")).fragments) := by
  have hc : ∀ msgs, ConsistentAt epConst msgs := by
    intro msgs
    exact ⟨"The resort is open.", [some "The resort ", none, some "is open."],
      rfl, rfl, by decide⟩
  exact ⟨Or.inr (by decide),
    C3_stream_matches_query beSmall epConst (some "hi") (Or.inr (by decide)) hc⟩

/-- C8 (amended): a missing, empty, or blank question is replaced by the
fixed fallback `Hello` before dispatch in `stream_query`; `query`, however,
performs no such substitution — it dispatches the coerced question
(`None` becomes the empty string) unchanged. -/
theorem C8_hello_fallback (be : Backend) (ep : Endpoint) (q : Option String)
    (hd : ¬ be.product_data = "")
    (hq : q = none ∨ q = some "" ∨ pyStrip (q.getD "") = "") :
    (stream_query be ep q).requests.map userContents = [["Hello"]] ∧
    (query be ep q).requests.map userContents = [[queryQuestion q]] := by
  constructor
  · rw [stream_query_requests be ep q hd]
    show [userContents (streamMessages be q)] = [["Hello"]]
    unfold streamMessages
    rw [userContents_pair, streamQuestion_hello q hq]
  · rw [query_requests be ep q hd]
    show [userContents (queryMessages be q)] = [[queryQuestion q]]
    unfold queryMessages
    rw [userContents_pair]

/-- Counterexample to C8 as stated: for a missing (`None`) question,
`query` dispatches the empty string as the user content, not `Hello`. -/
theorem C8_counterexample :
    (query beSmall epEcho none).requests.map userContents = [[""]] ∧
    ("" : String) ≠ "Hello" := by
  refine ⟨?_, by decide⟩
  rw [query_requests beSmall epEcho none (by decide)]
  rfl

/-- Witness for C8 at a concrete missing question. -/
theorem C8_witness :
    (¬ beSmall.product_data = "") ∧
    ((stream_query beSmall epEcho none).requests.map userContents =
        [["Hello"]] ∧
     (query beSmall epEcho none).requests.map userContents =
        [[queryQuestion none]]) :=
  ⟨by decide, C8_hello_fallback beSmall epEcho none (by decide) (Or.inl rfl)⟩

/-- While busy, a run without a reset executes only the generation block. -/
lemma runScript_busy_eq (be : Backend) (ep : Endpoint) (s : UIState)
    (input : Option String) (hp : s.processing = true) :
    runScript be ep s false input = processBlock be ep s := by
  unfold runScript
  rw [if_neg (by simp)]
  cases input with
  | none => rfl
  | some raw =>
    dsimp only
    rw [if_neg (by rintro ⟨-, hq⟩; rw [hp] at hq; cases hq)]

/-- C6: in every reachable session state, over one non-reset run of the
script: a run that changes the user entries of the transcript has set the
busy flag; while the busy flag is set no user message is accepted or
appended; and the only way the busy flag is cleared is by the run that
appends the terminal (non-empty) assistant text to the transcript. -/
theorem C6_busy_gate (be : Backend) (ep : Endpoint) (s : UIState)
    (input : Option String) (hr : Reachable be ep s) :
    (usersOf (runScript be ep s false input).messages ≠ usersOf s.messages →
      (runScript be ep s false input).processing = true) ∧
    (s.processing = true →
      usersOf (runScript be ep s false input).messages = usersOf s.messages) ∧
    (s.processing = true → (runScript be ep s false input).processing = false →
      ∃ t, ¬ t = "" ∧ (runScript be ep s false input).messages =
        s.messages ++ [Message.mk "assistant" t]) := by
  refine ⟨runScript_users_change be ep s input,
    fun hp => runScript_busy_usersOf be ep s input hp, fun hp hres => ?_⟩
  rw [runScript_busy_eq be ep s input hp] at hres ⊢
  exact processBlock_clears be ep s (WF_reachable be ep s hr) hp hres

/-- Witness for C6 at a concrete reachable busy state. -/
theorem C6_witness :
    Reachable beSmall epConst (UIState.mk [Message.mk "user" "Hi"] true) ∧
    ((usersOf (runScript beSmall epConst
        (UIState.mk [Message.mk "user" "Hi"] true) false none).messages ≠
        usersOf (UIState.mk [Message.mk "user" "Hi"] true).messages →
      (runScript beSmall epConst
        (UIState.mk [Message.mk "user" "Hi"] true) false none).processing = true) ∧
     ((UIState.mk [Message.mk "user" "Hi"] true).processing = true →
      usersOf (runScript beSmall epConst
        (UIState.mk [Message.mk "user" "Hi"] true) false none).messages =
        usersOf (UIState.mk [Message.mk "user" "Hi"] true).messages) ∧
     ((UIState.mk [Message.mk "user" "Hi"] true).processing = true →
      (runScript beSmall epConst
        (UIState.mk [Message.mk "user" "Hi"] true) false none).processing = false →
      ∃ t, ¬ t = "" ∧ (runScript beSmall epConst
        (UIState.mk [Message.mk "user" "Hi"] true) false none).messages =
        (UIState.mk [Message.mk "user" "Hi"] true).messages ++
          [Message.mk "assistant" t])) := by
  have hst : runScript beSmall epConst ⟨[], false⟩ false (some "Hi") =
      UIState.mk [Message.mk "user" "Hi"] true := by decide
  have hr : Reachable beSmall epConst (UIState.mk [Message.mk "user" "Hi"] true) := by
    rw [← hst]
    exact Reachable.step ⟨[], false⟩ false (some "Hi") Reachable.init
  exact ⟨hr, C6_busy_gate beSmall epConst
    (UIState.mk [Message.mk "user" "Hi"] true) none hr⟩

/-- C10: in every reachable session state, every transcript entry's role is
`user` or `assistant`, and every user entry's content is non-empty after
stripping; this holds across input acceptance, reply generation and
reset. -/
theorem C10_transcript_invariant (be : Backend) (ep : Endpoint) (s : UIState)
    (hr : Reachable be ep s) :
    ∀ m ∈ s.messages, (m.role = "user" ∨ m.role = "assistant") ∧
      (m.role = "user" → ¬ pyStrip m.content = "") := by
  intro m hm
  obtain ⟨hrole, huser⟩ := WF_reachable be ep s hr m hm
  refine ⟨hrole, fun hu => ?_⟩
  obtain ⟨hne, hfix⟩ := huser hu
  rw [hfix]
  exact hne

/-- Witness for C10 at a concrete reachable state with a user entry. -/
theorem C10_witness :
    Reachable beSmall epConst (UIState.mk [Message.mk "user" "Hi"] true) ∧
    ∀ m ∈ (UIState.mk [Message.mk "user" "Hi"] true).messages,
      (m.role = "user" ∨ m.role = "assistant") ∧
      (m.role = "user" → ¬ pyStrip m.content = "") := by
  have hst : runScript beSmall epConst ⟨[], false⟩ false (some "Hi") =
      UIState.mk [Message.mk "user" "Hi"] true := by decide
  have hr : Reachable beSmall epConst (UIState.mk [Message.mk "user" "Hi"] true) := by
    rw [← hst]
    exact Reachable.step ⟨[], false⟩ false (some "Hi") Reachable.init
  exact ⟨hr, C10_transcript_invariant beSmall epConst
    (UIState.mk [Message.mk "user" "Hi"] true) hr⟩

end Barberyn
